import Mathlib

/-!
Shallow embedding of `src/ThreadSafeStack.h` (class `mt::ThreadSafeStack`).

The C++ class stores `std::stack<std::shared_ptr<AdaptElem>, ...> m_stack`
protected by a mutex `m_mutex` and a condition variable `m_condVar`.  In the
embedding a stack state is the list of stored `shared_ptr` slots, head = top
of the stack (the side `std::stack` pushes and pops at).  A `shared_ptr` is
modelled as `Option α`: `none` is the null handle, `some a` a handle owning
value `a`.  Locking serialises each operation, so each public member function
becomes a pure function from the pre-state (plus its arguments) to its
results and the post-state.  The condition-variable wait of `waitAndPop` is
modelled by returning `none` when the calling thread would block (stack
empty and, sequentially, nothing will ever wake it).
-/

namespace mt

/-- Error outcomes a member function of `ThreadSafeStack` can surface:
`std::make_shared` may fail with an allocation failure, and the two `pop`
overloads throw `std::runtime_error("The ThreadSafeStack is empty")` on an
empty stack (the specification's *EmptyContainer* error). -/
inductive StackError where
  | AllocationFailure : StackError
  | EmptyContainer : String → StackError
  deriving DecidableEq, Repr

/-- A `std::shared_ptr<AdaptElem>` slot: `none` is the null handle. -/
abbrev Slot (α : Type) := Option α

/-- State of `mt::ThreadSafeStack`: the field `m_stack`, head = top.
The mutex and condition variable have no sequential state of their own. -/
structure ThreadSafeStack (α : Type) where
  m_stack : List (Slot α)
  deriving DecidableEq, Repr

namespace ThreadSafeStack

variable {α : Type}

/-- Default constructor `ThreadSafeStack() = default`: empty `m_stack`. -/
def defaultCtor : ThreadSafeStack α := ⟨[]⟩

/-- Dereference `*p` of a `shared_ptr` slot.  Dereferencing a null handle is
undefined behaviour in C++; the embedding totalises it with `default`, and
the non-null-slot invariant shows the null case is never reached by the
class's own operations. -/
def deref [Inhabited α] (p : Slot α) : α := p.getD default

/-- Model of `std::make_shared<AdaptElem>(std::move(elem))` in `push`:
when allocation succeeds (`alloc = true`) it yields a non-null handle owning
the element, otherwise it fails without any other effect.  The `alloc` flag
stands for the allocator's behaviour at this call. -/
def mkShared (alloc : Bool) (elem : α) : Except StackError (Slot α) :=
  if alloc then Except.ok (some elem) else Except.error StackError.AllocationFailure

/-- Success path of `push(AdaptElem elem)`: wrap the element in a slot and
`m_stack.push` it.  (`m_condVar.notify_one()` has no sequential effect.) -/
def push (s : ThreadSafeStack α) (elem : α) : ThreadSafeStack α :=
  ⟨some elem :: s.m_stack⟩

/-- Full body of `push`, with the fallible `make_shared` call made explicit:
the slot is constructed before the lock is taken, so on failure the
exception propagates with `m_stack` still untouched. -/
def pushChecked (s : ThreadSafeStack α) (alloc : Bool) (elem : α) :
    Except StackError Unit × ThreadSafeStack α :=
  match mkShared alloc elem with
  | Except.error e => (Except.error e, s)
  | Except.ok data => (Except.ok (), ⟨data :: s.m_stack⟩)

/-- `waitAndPop(AdaptElem& elem)`: wait until `m_stack` is non-empty, then
`elem = std::move(*m_stack.top()); m_stack.pop()`.  Result `none` models the
call blocking forever (sequentially, an empty stack is never refilled);
otherwise the new value of `elem` and the post-state are returned. -/
def waitAndPopRef [Inhabited α] (s : ThreadSafeStack α) :
    Option (α × ThreadSafeStack α) :=
  match s.m_stack with
  | [] => none
  | t :: rest => some (deref t, ⟨rest⟩)

/-- `std::shared_ptr<AdaptElem> waitAndPop()`: wait until non-empty, then
move the top slot out and `m_stack.pop()`.  `none` models blocking forever. -/
def waitAndPop (s : ThreadSafeStack α) :
    Option (Slot α × ThreadSafeStack α) :=
  match s.m_stack with
  | [] => none
  | t :: rest => some (t, ⟨rest⟩)

/-- `bool tryPop(AdaptElem& elem)`: on an empty stack return `false` leaving
`elem` (passed in as its prior value) and `m_stack` untouched; otherwise
move the top element into `elem`, pop, and return `true`. -/
def tryPopRef [Inhabited α] (s : ThreadSafeStack α) (elem : α) :
    Bool × α × ThreadSafeStack α :=
  match s.m_stack with
  | [] => (false, elem, s)
  | t :: rest => (true, deref t, ⟨rest⟩)

/-- `std::shared_ptr<AdaptElem> tryPop()`: on an empty stack return the null
handle `std::shared_ptr<AdaptElem>{}`; otherwise move the top slot out and
pop. -/
def tryPop (s : ThreadSafeStack α) : Slot α × ThreadSafeStack α :=
  match s.m_stack with
  | [] => (none, s)
  | t :: rest => (t, ⟨rest⟩)

/-- `std::shared_ptr<AdaptElem> pop()`: on an empty stack throw
`std::runtime_error("The ThreadSafeStack is empty")`; otherwise move the top
slot out and pop. -/
def pop (s : ThreadSafeStack α) :
    Except StackError (Slot α) × ThreadSafeStack α :=
  match s.m_stack with
  | [] => (Except.error (StackError.EmptyContainer "The ThreadSafeStack is empty"), s)
  | t :: rest => (Except.ok t, ⟨rest⟩)

/-- `void pop(AdaptElem& elem)`: on an empty stack throw
`std::runtime_error("The ThreadSafeStack is empty")` leaving `elem`
untouched; otherwise move the top element into `elem` and pop. -/
def popRef [Inhabited α] (s : ThreadSafeStack α) (elem : α) :
    Except StackError Unit × α × ThreadSafeStack α :=
  match s.m_stack with
  | [] => (Except.error (StackError.EmptyContainer "The ThreadSafeStack is empty"), elem, s)
  | t :: rest => (Except.ok (), deref t, ⟨rest⟩)

/-- Copy constructor: lock `rhs.m_mutex`, then `m_stack = rhs.m_stack`.
Only the new object is written; `rhs` is read under its lock. -/
def copyCtor (rhs : ThreadSafeStack α) : ThreadSafeStack α :=
  ⟨rhs.m_stack⟩

/-- Move constructor: lock `rhs.m_mutex`, then `m_stack = std::move(rhs.m_stack)`.
Returns the new object; the moved-from state of `rhs` is unspecified by the
standard and no claim depends on it. -/
def moveCtor (rhs : ThreadSafeStack α) : ThreadSafeStack α :=
  ⟨rhs.m_stack⟩

/-- Copy assignment `operator=(const ThreadSafeStack& rhs)`: `same` models
the aliasing test `this != &rhs` (so `same = true` is only meaningful with
`lhs = rhs`, both naming the one object).  On the self case nothing happens;
otherwise both mutexes are taken with `std::scoped_lock` and
`m_stack = rhs.m_stack`. -/
def copyAssign (same : Bool) (lhs rhs : ThreadSafeStack α) : ThreadSafeStack α :=
  if same then lhs else ⟨rhs.m_stack⟩

/-- Move assignment `operator=(ThreadSafeStack&& rhs)`: `same` models
`this != &rhs`.  On the self case nothing happens; otherwise both mutexes
are taken and `m_stack = std::move(rhs.m_stack)`.  The destination state is
returned; the moved-from state of `rhs` is unspecified. -/
def moveAssign (same : Bool) (lhs rhs : ThreadSafeStack α) : ThreadSafeStack α :=
  if same then lhs else ⟨rhs.m_stack⟩

/-- Member `swap(ThreadSafeStack& rhs)`: `same` models `this != &rhs`.  On
the self case nothing happens; otherwise both mutexes are taken and
`std::swap(m_stack, rhs.m_stack)`.  Returns (this-after, rhs-after). -/
def swap (same : Bool) (lhs rhs : ThreadSafeStack α) :
    ThreadSafeStack α × ThreadSafeStack α :=
  if same then (lhs, rhs) else (⟨rhs.m_stack⟩, ⟨lhs.m_stack⟩)

/-- Free function `swap(lhs, rhs)`: forwards to `lhs.swap(rhs)`. -/
def swapFree (same : Bool) (lhs rhs : ThreadSafeStack α) :
    ThreadSafeStack α × ThreadSafeStack α :=
  swap same lhs rhs

/-- Non-null-slot invariant: every `shared_ptr` stored in `m_stack` is
non-null. -/
def slotsNonNull (s : ThreadSafeStack α) : Bool :=
  s.m_stack.all Option.isSome

/-- Push a whole list of elements, first element first. -/
def pushAll (s : ThreadSafeStack α) (ps : List α) : ThreadSafeStack α :=
  ps.foldl push s

/-- Perform `n` calls of `tryPop()`, collecting the returned handles. -/
def drainTry : ThreadSafeStack α → Nat → List (Slot α) × ThreadSafeStack α
  | s, 0 => ([], s)
  | s, n + 1 =>
      let r := tryPop s
      let rs := drainTry r.2 n
      (r.1 :: rs.1, rs.2)

/-- Perform `n` calls of `pop()`, collecting the returned outcomes. -/
def drainPop : ThreadSafeStack α → Nat → List (Except StackError (Slot α)) × ThreadSafeStack α
  | s, 0 => ([], s)
  | s, n + 1 =>
      let r := pop s
      let rs := drainPop r.2 n
      (r.1 :: rs.1, rs.2)

/-- Perform `n` calls of `waitAndPop()`, collecting the returned handles;
if a call blocks (empty stack, sequential setting) no further handle is
collected. -/
def drainWait : ThreadSafeStack α → Nat → List (Slot α) × ThreadSafeStack α
  | s, 0 => ([], s)
  | s, n + 1 =>
      match waitAndPop s with
      | none => ([], s)
      | some (r, s1) =>
          let rs := drainWait s1 n
          (r :: rs.1, rs.2)

/-- Perform `n` calls of `tryPop(elem)`, collecting the successive values of
`elem` after each call. -/
def drainTryRef [Inhabited α] : ThreadSafeStack α → Nat → List α × ThreadSafeStack α
  | s, 0 => ([], s)
  | s, n + 1 =>
      let r := tryPopRef s default
      let rs := drainTryRef r.2.2 n
      (r.2.1 :: rs.1, rs.2)

/-- Perform `n` calls of `pop(elem)`, collecting the successive values of
`elem` after each call. -/
def drainPopRef [Inhabited α] : ThreadSafeStack α → Nat → List α × ThreadSafeStack α
  | s, 0 => ([], s)
  | s, n + 1 =>
      let r := popRef s default
      let rs := drainPopRef r.2.2 n
      (r.2.1 :: rs.1, rs.2)

/-- Perform `n` calls of `waitAndPop(elem)`, collecting the successive
values of `elem`; if a call blocks no further value is collected. -/
def drainWaitRef [Inhabited α] : ThreadSafeStack α → Nat → List α × ThreadSafeStack α
  | s, 0 => ([], s)
  | s, n + 1 =>
      match waitAndPopRef s with
      | none => ([], s)
      | some (x, s1) =>
          let rs := drainWaitRef s1 n
          (x :: rs.1, rs.2)

/-! Helper lemmas shared by the claim theorems. -/

theorem deref_some [Inhabited α] (a : α) : deref (some a) = a := rfl

theorem pushAll_eq (s : ThreadSafeStack α) (ps : List α) :
    pushAll s ps = ⟨ps.reverse.map some ++ s.m_stack⟩ := by
  induction ps generalizing s with
  | nil => rfl
  | cons p ps ih =>
      show pushAll (push s p) ps = _
      rw [ih]
      simp [push]

theorem drainTry_append (l rest : List (Slot α)) :
    drainTry ⟨l ++ rest⟩ l.length = (l, ⟨rest⟩) := by
  induction l with
  | nil => rfl
  | cons a l ih => simp [drainTry, tryPop, ih]

theorem drainPop_append (l rest : List (Slot α)) :
    drainPop ⟨l ++ rest⟩ l.length = (l.map Except.ok, ⟨rest⟩) := by
  induction l with
  | nil => rfl
  | cons a l ih => simp [drainPop, pop, ih]

theorem drainWait_append (l rest : List (Slot α)) :
    drainWait ⟨l ++ rest⟩ l.length = (l, ⟨rest⟩) := by
  induction l with
  | nil => rfl
  | cons a l ih => simp [drainWait, waitAndPop, ih]

theorem drainTryRef_append [Inhabited α] (l rest : List (Slot α)) :
    drainTryRef ⟨l ++ rest⟩ l.length = (l.map deref, ⟨rest⟩) := by
  induction l with
  | nil => rfl
  | cons a l ih => simp [drainTryRef, tryPopRef, ih]

theorem drainPopRef_append [Inhabited α] (l rest : List (Slot α)) :
    drainPopRef ⟨l ++ rest⟩ l.length = (l.map deref, ⟨rest⟩) := by
  induction l with
  | nil => rfl
  | cons a l ih => simp [drainPopRef, popRef, ih]

theorem drainWaitRef_append [Inhabited α] (l rest : List (Slot α)) :
    drainWaitRef ⟨l ++ rest⟩ l.length = (l.map deref, ⟨rest⟩) := by
  induction l with
  | nil => rfl
  | cons a l ih => simp [drainWaitRef, waitAndPopRef, ih]

/-! Claim theorems. -/

/-- Claim C1: LIFO order.  For any stack and any sequence of pushes
`p1, ..., pn` with no interleaved pops, the first `n` subsequent pops — in
each of the non-blocking (`tryPop`), immediate-failure (`pop`) and blocking
(`waitAndPop`) forms, handle-returning and output-parameter alike — yield
`pn, pn-1, ..., p1`. -/
theorem lifo_order [Inhabited α] (s0 : ThreadSafeStack α) (ps : List α) :
    (drainTry (pushAll s0 ps) ps.length).1 = ps.reverse.map some ∧
    (drainPop (pushAll s0 ps) ps.length).1
      = ps.reverse.map (fun a => Except.ok (some a)) ∧
    (drainWait (pushAll s0 ps) ps.length).1 = ps.reverse.map some ∧
    (drainTryRef (pushAll s0 ps) ps.length).1 = ps.reverse ∧
    (drainPopRef (pushAll s0 ps) ps.length).1 = ps.reverse ∧
    (drainWaitRef (pushAll s0 ps) ps.length).1 = ps.reverse := by
  have h1 := drainTry_append (ps.reverse.map some) s0.m_stack
  have h2 := drainPop_append (ps.reverse.map some) s0.m_stack
  have h3 := drainWait_append (ps.reverse.map some) s0.m_stack
  have h4 := drainTryRef_append (α := α) (ps.reverse.map some) s0.m_stack
  have h5 := drainPopRef_append (α := α) (ps.reverse.map some) s0.m_stack
  have h6 := drainWaitRef_append (α := α) (ps.reverse.map some) s0.m_stack
  simp only [List.length_map, List.length_reverse] at h1 h2 h3 h4 h5 h6
  rw [pushAll_eq]
  refine ⟨by rw [h1], ?_, by rw [h3], ?_, ?_, ?_⟩
  · rw [h2]
    simp [List.map_map, Function.comp]
  · rw [h4]
    simp [List.map_map, Function.comp_def, deref]
  · rw [h5]
    simp [List.map_map, Function.comp_def, deref]
  · rw [h6]
    simp [List.map_map, Function.comp_def, deref]

/-- Claim C2: on an empty stack both `pop` overloads fail with the
*EmptyContainer* error (`std::runtime_error("The ThreadSafeStack is
empty")`) rather than returning a sentinel; the output argument and the
stack are left unchanged. -/
theorem pop_empty_raises [Inhabited α] (s : ThreadSafeStack α) (elem : α)
    (h : s.m_stack = []) :
    pop s = (Except.error (StackError.EmptyContainer "The ThreadSafeStack is empty"), s) ∧
    popRef s elem
      = (Except.error (StackError.EmptyContainer "The ThreadSafeStack is empty"), elem, s) := by
  obtain ⟨l⟩ := s
  have h' : l = [] := h
  subst h'
  exact ⟨rfl, rfl⟩

/-- Witness for C2 at the concrete empty stack over `Nat`. -/
theorem pop_empty_raises_witness :
    pop (⟨[]⟩ : ThreadSafeStack Nat)
      = (Except.error (StackError.EmptyContainer "The ThreadSafeStack is empty"), ⟨[]⟩) ∧
    popRef (⟨[]⟩ : ThreadSafeStack Nat) 7
      = (Except.error (StackError.EmptyContainer "The ThreadSafeStack is empty"), 7, ⟨[]⟩) :=
  pop_empty_raises ⟨[]⟩ 7 rfl

/-- Claim C3: on an empty stack the output-parameter `tryPop` returns
`false` leaving the output argument and the stack unchanged, the
handle-returning `tryPop` returns the null handle leaving the stack
unchanged, and neither raises an error (their result types carry no error
channel at all). -/
theorem tryPop_empty_no_error [Inhabited α] (s : ThreadSafeStack α) (elem : α)
    (h : s.m_stack = []) :
    tryPopRef s elem = (false, elem, s) ∧ tryPop s = (none, s) := by
  obtain ⟨l⟩ := s
  have h' : l = [] := h
  subst h'
  exact ⟨rfl, rfl⟩

/-- Witness for C3 at the concrete empty stack over `Nat`. -/
theorem tryPop_empty_no_error_witness :
    tryPopRef (⟨[]⟩ : ThreadSafeStack Nat) 7 = (false, 7, ⟨[]⟩) ∧
    tryPop (⟨[]⟩ : ThreadSafeStack Nat) = (none, ⟨[]⟩) :=
  tryPop_empty_no_error ⟨[]⟩ 7 rfl

/-- Claim C4: push is atomic with respect to failure.  If wrapping the
element into its slot (`std::make_shared`) fails, `push` propagates exactly
that failure and the stack is left exactly as before the call — the slot is
built before the lock is taken and before any mutation of `m_stack`. -/
theorem push_failure_atomic (s : ThreadSafeStack α) (alloc : Bool) (elem : α)
    (e : StackError) (h : mkShared alloc elem = Except.error e) :
    pushChecked s alloc elem = (Except.error e, s) := by
  simp [pushChecked, h]

/-- Witness for C4: a failing allocation at a concrete non-empty stack. -/
theorem push_failure_atomic_witness :
    mkShared false (5 : Nat) = Except.error StackError.AllocationFailure ∧
    pushChecked (⟨[some 1]⟩ : ThreadSafeStack Nat) false 5
      = (Except.error StackError.AllocationFailure, ⟨[some 1]⟩) :=
  ⟨rfl, push_failure_atomic ⟨[some 1]⟩ false 5 StackError.AllocationFailure rfl⟩

/-- Claim C5: self-operations are no-ops.  Copy-assigning a stack from
itself, move-assigning it from itself, and swapping it with itself (member
`swap` or the free `swap`) leave its contents and their order unchanged —
the aliasing test `this != &rhs` short-circuits each operation. -/
theorem self_ops_noop (s : ThreadSafeStack α) :
    copyAssign true s s = s ∧ moveAssign true s s = s ∧
    swap true s s = (s, s) ∧ swapFree true s s = (s, s) :=
  ⟨rfl, rfl, rfl, rfl⟩

/-- Claim C6: on a non-empty stack both `tryPop` forms perform exactly the
removal step of `waitAndPop` and `pop`: they remove the most recently
inserted element, yield it (handle or output parameter), and leave the same
resulting stack. -/
theorem tryPop_refines_pop [Inhabited α] (s : ThreadSafeStack α) (a elem : α)
    (h : s.m_stack ≠ []) :
    waitAndPop s = some (tryPop s) ∧
    pop s = (Except.ok (tryPop s).1, (tryPop s).2) ∧
    (tryPopRef s elem).1 = true ∧
    waitAndPopRef s = some (tryPopRef s elem).2 ∧
    popRef s elem = (Except.ok (), (tryPopRef s elem).2) ∧
    (tryPop (push s a)).1 = some a := by
  obtain ⟨l⟩ := s
  cases l with
  | nil => exact absurd rfl h
  | cons t rest => exact ⟨rfl, rfl, rfl, rfl, rfl, rfl⟩

/-- Witness for C6 at the concrete one-element stack `[some 1]` over `Nat`. -/
theorem tryPop_refines_pop_witness :
    waitAndPop (⟨[some 1]⟩ : ThreadSafeStack Nat) = some (tryPop ⟨[some 1]⟩) ∧
    pop (⟨[some 1]⟩ : ThreadSafeStack Nat)
      = (Except.ok (tryPop (⟨[some 1]⟩ : ThreadSafeStack Nat)).1,
         (tryPop (⟨[some 1]⟩ : ThreadSafeStack Nat)).2) ∧
    (tryPopRef (⟨[some 1]⟩ : ThreadSafeStack Nat) 0).1 = true ∧
    waitAndPopRef (⟨[some 1]⟩ : ThreadSafeStack Nat)
      = some (tryPopRef (⟨[some 1]⟩ : ThreadSafeStack Nat) 0).2 ∧
    popRef (⟨[some 1]⟩ : ThreadSafeStack Nat) 0
      = (Except.ok (), (tryPopRef (⟨[some 1]⟩ : ThreadSafeStack Nat) 0).2) ∧
    (tryPop (push (⟨[some 1]⟩ : ThreadSafeStack Nat) 2)).1 = some 2 :=
  tryPop_refines_pop ⟨[some 1]⟩ 2 0 (by decide)

/-- Claim C7: copying duplicates the whole sequence.  Copy-construction
yields a stack whose sequence equals the source's (the source, only read
under its lock, is unchanged — the embedding never mutates it), and
copy-assignment between distinct stacks makes the destination's sequence
equal to the source's, its prior contents fully replaced (the result does
not depend on the destination's previous state). -/
theorem copy_duplicates (lhs rhs : ThreadSafeStack α) :
    (copyCtor rhs).m_stack = rhs.m_stack ∧
    (copyAssign false lhs rhs).m_stack = rhs.m_stack :=
  ⟨rfl, rfl⟩

/-- Claim C9: non-null-slot invariant.  Every slot stored in `m_stack` is
non-null: this holds for the default-constructed empty stack and is
preserved by `push` (which always builds the element's slot first), by every
removal form, and by copy/move construction, assignment and swap.
Consequently, given the invariant, `pop()` and `waitAndPop()` never return a
null handle, and `tryPop()` returns the null handle iff the stack was
empty. -/
theorem slots_non_null_invariant [Inhabited α] (s t : ThreadSafeStack α) (a elem : α)
    (hs : slotsNonNull s = true) (ht : slotsNonNull t = true) :
    slotsNonNull (defaultCtor : ThreadSafeStack α) = true ∧
    (∀ b, slotsNonNull (pushChecked s b a).2 = true) ∧
    slotsNonNull (push s a) = true ∧
    slotsNonNull (tryPop s).2 = true ∧
    slotsNonNull (tryPopRef s elem).2.2 = true ∧
    slotsNonNull (pop s).2 = true ∧
    slotsNonNull (popRef s elem).2.2 = true ∧
    (∀ r s1, waitAndPop s = some (r, s1) → slotsNonNull s1 = true) ∧
    (∀ x s1, waitAndPopRef s = some (x, s1) → slotsNonNull s1 = true) ∧
    slotsNonNull (copyCtor s) = true ∧
    slotsNonNull (moveCtor s) = true ∧
    (∀ b, slotsNonNull (copyAssign b s t) = true) ∧
    (∀ b, slotsNonNull (moveAssign b s t) = true) ∧
    (∀ b, slotsNonNull (swap b s t).1 = true ∧ slotsNonNull (swap b s t).2 = true) ∧
    (∀ b, slotsNonNull (swapFree b s t).1 = true ∧ slotsNonNull (swapFree b s t).2 = true) ∧
    (s.m_stack ≠ [] → ∃ r, (pop s).1 = Except.ok r ∧ r.isSome = true) ∧
    (s.m_stack ≠ [] → ∃ r s1, waitAndPop s = some (r, s1) ∧ r.isSome = true) ∧
    ((tryPop s).1 = none ↔ s.m_stack = []) := by
  obtain ⟨l⟩ := s
  obtain ⟨m⟩ := t
  refine ⟨rfl, ?_, ?_, ?_, ?_, ?_, ?_, ?_, ?_, ?_, ?_, ?_, ?_, ?_, ?_, ?_, ?_, ?_⟩
  · intro b
    cases b <;> simp_all [pushChecked, mkShared, slotsNonNull]
  · simp_all [push, slotsNonNull]
  · cases l with
    | nil => exact hs
    | cons t0 rest => simp_all [tryPop, slotsNonNull]
  · cases l with
    | nil => exact hs
    | cons t0 rest => simp_all [tryPopRef, slotsNonNull]
  · cases l with
    | nil => exact hs
    | cons t0 rest => simp_all [pop, slotsNonNull]
  · cases l with
    | nil => exact hs
    | cons t0 rest => simp_all [popRef, slotsNonNull]
  · intro r s1 hr
    cases l with
    | nil => simp [waitAndPop] at hr
    | cons t0 rest =>
        simp only [waitAndPop, Option.some.injEq, Prod.mk.injEq] at hr
        rw [← hr.2]
        simp_all [slotsNonNull]
  · intro x s1 hx
    cases l with
    | nil => simp [waitAndPopRef] at hx
    | cons t0 rest =>
        simp only [waitAndPopRef, Option.some.injEq, Prod.mk.injEq] at hx
        rw [← hx.2]
        simp_all [slotsNonNull]
  · exact hs
  · exact hs
  · intro b
    cases b
    · exact ht
    · exact hs
  · intro b
    cases b
    · exact ht
    · exact hs
  · intro b
    cases b
    · exact ⟨ht, hs⟩
    · exact ⟨hs, ht⟩
  · intro b
    cases b
    · exact ⟨ht, hs⟩
    · exact ⟨hs, ht⟩
  · intro h
    cases l with
    | nil => exact absurd rfl h
    | cons t0 rest => exact ⟨t0, rfl, by simp_all [slotsNonNull]⟩
  · intro h
    cases l with
    | nil => exact absurd rfl h
    | cons t0 rest => exact ⟨t0, ⟨rest⟩, rfl, by simp_all [slotsNonNull]⟩
  · cases l with
    | nil => simp [tryPop]
    | cons t0 rest =>
        simp only [tryPop]
        simp_all [slotsNonNull, Option.isSome_iff_ne_none]

/-- Witness for C9 at `s = [some 1]`, `t = []` over `Nat`, with the
universally quantified conjuncts instantiated. -/
theorem slots_non_null_invariant_witness :
    slotsNonNull (defaultCtor : ThreadSafeStack Nat) = true ∧
    slotsNonNull (pushChecked (⟨[some 1]⟩ : ThreadSafeStack Nat) false 5).2 = true ∧
    slotsNonNull (push (⟨[some 1]⟩ : ThreadSafeStack Nat) 5) = true ∧
    slotsNonNull (tryPop (⟨[some 1]⟩ : ThreadSafeStack Nat)).2 = true ∧
    slotsNonNull (tryPopRef (⟨[some 1]⟩ : ThreadSafeStack Nat) 0).2.2 = true ∧
    slotsNonNull (pop (⟨[some 1]⟩ : ThreadSafeStack Nat)).2 = true ∧
    slotsNonNull (popRef (⟨[some 1]⟩ : ThreadSafeStack Nat) 0).2.2 = true ∧
    slotsNonNull (copyCtor (⟨[some 1]⟩ : ThreadSafeStack Nat)) = true ∧
    slotsNonNull (moveCtor (⟨[some 1]⟩ : ThreadSafeStack Nat)) = true ∧
    slotsNonNull (copyAssign false (⟨[some 1]⟩ : ThreadSafeStack Nat) ⟨[]⟩) = true ∧
    slotsNonNull (moveAssign false (⟨[some 1]⟩ : ThreadSafeStack Nat) ⟨[]⟩) = true ∧
    slotsNonNull (swap false (⟨[some 1]⟩ : ThreadSafeStack Nat) ⟨[]⟩).1 = true ∧
    slotsNonNull (swapFree false (⟨[some 1]⟩ : ThreadSafeStack Nat) ⟨[]⟩).2 = true ∧
    ((tryPop (⟨[some 1]⟩ : ThreadSafeStack Nat)).1 = none ↔
      (⟨[some 1]⟩ : ThreadSafeStack Nat).m_stack = []) := by
  have H := slots_non_null_invariant (⟨[some 1]⟩ : ThreadSafeStack Nat) ⟨[]⟩ 5 0
    (by decide) (by decide)
  obtain ⟨h1, h2, h3, h4, h5, h6, h7, h8, h9, h10, h11, h12, h13, h14, h15, h16, h17, h18⟩ := H
  exact ⟨h1, h2 false, h3, h4, h5, h6, h7, h10, h11, h12 false, h13 false,
    (h14 false).1, (h15 false).2, h18⟩

/-- Claim C10: frame property of removal.  On a non-empty stack every
successful removal form pops exactly the single most-recent element: the
resulting sequence is the tail of the original (all other elements and
their relative order unchanged) and the size decreases by exactly one. -/
theorem removal_frame [Inhabited α] (s : ThreadSafeStack α) (elem : α)
    (h : s.m_stack ≠ []) :
    (tryPop s).2.m_stack = s.m_stack.tail ∧
    (tryPopRef s elem).2.2.m_stack = s.m_stack.tail ∧
    (pop s).2.m_stack = s.m_stack.tail ∧
    (popRef s elem).2.2.m_stack = s.m_stack.tail ∧
    (waitAndPop s).map (fun r => r.2.m_stack) = some s.m_stack.tail ∧
    (waitAndPopRef s).map (fun r => r.2.m_stack) = some s.m_stack.tail ∧
    (tryPop s).2.m_stack.length + 1 = s.m_stack.length := by
  obtain ⟨l⟩ := s
  cases l with
  | nil => exact absurd rfl h
  | cons t0 rest => exact ⟨rfl, rfl, rfl, rfl, rfl, rfl, rfl⟩

/-- Witness for C10 at the concrete stack `[some 1, some 2]` over `Nat`. -/
theorem removal_frame_witness :
    (tryPop (⟨[some 1, some 2]⟩ : ThreadSafeStack Nat)).2.m_stack
      = (⟨[some 1, some 2]⟩ : ThreadSafeStack Nat).m_stack.tail ∧
    (tryPopRef (⟨[some 1, some 2]⟩ : ThreadSafeStack Nat) 0).2.2.m_stack
      = (⟨[some 1, some 2]⟩ : ThreadSafeStack Nat).m_stack.tail ∧
    (pop (⟨[some 1, some 2]⟩ : ThreadSafeStack Nat)).2.m_stack
      = (⟨[some 1, some 2]⟩ : ThreadSafeStack Nat).m_stack.tail ∧
    (popRef (⟨[some 1, some 2]⟩ : ThreadSafeStack Nat) 0).2.2.m_stack
      = (⟨[some 1, some 2]⟩ : ThreadSafeStack Nat).m_stack.tail ∧
    (waitAndPop (⟨[some 1, some 2]⟩ : ThreadSafeStack Nat)).map (fun r => r.2.m_stack)
      = some (⟨[some 1, some 2]⟩ : ThreadSafeStack Nat).m_stack.tail ∧
    (waitAndPopRef (⟨[some 1, some 2]⟩ : ThreadSafeStack Nat)).map (fun r => r.2.m_stack)
      = some (⟨[some 1, some 2]⟩ : ThreadSafeStack Nat).m_stack.tail ∧
    (tryPop (⟨[some 1, some 2]⟩ : ThreadSafeStack Nat)).2.m_stack.length + 1
      = (⟨[some 1, some 2]⟩ : ThreadSafeStack Nat).m_stack.length :=
  removal_frame ⟨[some 1, some 2]⟩ 0 (by decide)

end ThreadSafeStack

end mt
